import Mathlib

/-!
# R140 amplifier controller: band-decode / PTT-interlock core

Shallow embedding of the band-decode / PTT-interlock state machine of
`src/sergej-arduino/R140_control.ino` (current firmware) and of the band
mapping of `src/sergej-arduino/sergej_basic.ino` (earlier sketch).

Modelling conventions:
* `unsigned long` (32-bit on this platform) is `Nat` with arithmetic reduced
  mod `2^32` where the C code can wrap (the `now - lastBandChangeTime`
  subtraction); state fields hold values already `< 2^32`.
* A control-loop tick samples all inputs once (`TickInput`): the PTT input
  level, the tuning (`uglasevanje`) input level, the four band pins and the
  `millis()` value.  The firmware calls `millis()` more than once inside a
  tick; following the single-sampling contract of the design (inputs are
  sampled once per tick and held fixed), all calls within one tick are
  modelled by the single `now` field.
* Calls to `publishDebugMessage` / `publishAmpStatus` are the hand-off
  points to the logging / telemetry collaborators: a tick's `debug` list
  records the debug events handed over (in call order) and `statusCount`
  the number of status-snapshot hand-offs.  `publishDebugMessage`'s own
  `debugEnabled` gate is modelled separately (`publishDebugMessage`,
  `loopStep`), since the `loop()` function manages that gate.
-/

namespace R140

/-- `2^32`, the modulus of `unsigned long` arithmetic on this platform. -/
def U32 : Nat := 4294967296

/-- Wraparound (unsigned 32-bit) subtraction `a - b`. -/
def u32sub (a b : Nat) : Nat := (a + (U32 - b % U32)) % U32

/-- `const byte Mask = 15;` — mask for the 4-bit band code. -/
def Mask : Nat := 15

/-- Inputs sampled by one control-loop tick. -/
structure TickInput where
  /-- `digitalRead(pttInp) == LOW`, i.e. PTT pressed (active LOW). -/
  pttLow : Bool
  /-- `digitalRead(uglasevanje) == LOW` (tuning input, active LOW). -/
  uglLow : Bool
  /-- band input pin bit 0 reads HIGH -/
  bandBit0 : Bool
  /-- band input pin bit 1 reads HIGH -/
  bandBit1 : Bool
  /-- band input pin bit 2 reads HIGH -/
  bandBit2 : Bool
  /-- band input pin bit 3 reads HIGH -/
  bandBit3 : Bool
  /-- `millis()` at this tick, already reduced `< 2^32`. -/
  now : Nat
  deriving Repr, DecidableEq

/-- `readBandCode()` on four given pin readings: `value |= (1 << i)` for each
HIGH pin `i`, then `value & Mask`. -/
def readBandCodeBits (b0 b1 b2 b3 : Bool) : Nat :=
  ((((if b0 then 1 else 0) ||| (if b1 then 2 else 0)) |||
    (if b2 then 4 else 0)) ||| (if b3 then 8 else 0)) &&& Mask

/-- `readBandCode()` applied to this tick's sampled band pins. -/
def readBandCode (i : TickInput) : Nat :=
  readBandCodeBits i.bandBit0 i.bandBit1 i.bandBit2 i.bandBit3

/-- The `switch (b)` pattern table of `applyBandOutputs` (pattern bit `i`
drives output pin `i`; `default` falls to all-on `0b1111`). -/
def bandPatternOf (b : Nat) : Nat :=
  match b with
  | 15 => 0b1111
  | 14 => 0b0000
  | 13 => 0b0001
  | 12 => 0b0010
  | 11 => 0b0011
  | 10 => 0b0100
  | 9  => 0b0101
  | 8  => 0b0110
  | 7  => 0b0111
  | 6  => 0b1000
  | 5  => 0b1001
  | _  => 0b1111

/-- The §4.2 Output Mapper table transcribed from the spec's words
(patterns written OUT3 OUT2 OUT1 OUT0; codes 0–4 map to the same all-on
pattern as code 15).  Used only to compare against `bandPatternOf`. -/
def specOutputTable (b : Nat) : Nat :=
  if b = 15 then 0b1111
  else if b = 14 then 0b0000
  else if b = 13 then 0b0001
  else if b = 12 then 0b0010
  else if b = 11 then 0b0011
  else if b = 10 then 0b0100
  else if b = 9 then 0b0101
  else if b = 8 then 0b0110
  else if b = 7 then 0b0111
  else if b = 6 then 0b1000
  else if b = 5 then 0b1001
  else 0b1111

/-- One `case` of the earlier sketch's `bandControl` (`sergej_basic.ino`):
the effect on the `PORTD` register (8 bits) of a band change to `band`.
`case 15` and `default` only OR in `B00111100`; every other case first
clears bits 2–5 with `&= B11000011` and then ORs in its drive bits. -/
def basicBandPORTD (band portd : Nat) : Nat :=
  match band with
  | 15 => portd ||| 0x3C
  | 14 => portd &&& 0xC3
  | 13 => (portd &&& 0xC3) ||| 0x04
  | 12 => (portd &&& 0xC3) ||| 0x08
  | 11 => (portd &&& 0xC3) ||| 0x0C
  | 10 => (portd &&& 0xC3) ||| 0x10
  | 9  => (portd &&& 0xC3) ||| 0x14
  | 8  => (portd &&& 0xC3) ||| 0x18
  | 7  => (portd &&& 0xC3) ||| 0x1C
  | 6  => (portd &&& 0xC3) ||| 0x20
  | 5  => (portd &&& 0xC3) ||| 0x24
  | _  => portd ||| 0x3C

/-- The relay-drive pattern present on PORTD bits 2–5 (bit `i+2`
corresponding to output `i`). -/
def portdOutputBits (portd : Nat) : Nat := (portd >>> 2) &&& 15

/-- The debug lines the firmware hands to `publishDebugMessage`, abstracted
to their kind and the numeric data they carry. -/
inductive DebugEvent where
  /-- `"[BAND] change detected: %u -> %u"` (from `bandControl`) -/
  | bandChange (prev new : Nat)
  /-- `"[BAND] Blocking PTT for %d s"` (from `bandControl`) -/
  | bandBlocking (seconds : Nat)
  /-- `"[BAND] code=%u -> pattern=0b%04b"` (from `applyBandOutputs`) -/
  | bandPattern (code pattern : Nat)
  /-- `"[PTT] IN active and allowed -> TX ON"` -/
  | pttTxOn
  /-- `"[PTT] IN active BUT BLOCKED (%d s after band change)"` -/
  | pttBlocked (seconds : Nat)
  /-- `"[PTT] IN released -> TX OFF"` -/
  | pttTxOff
  /-- `"[INFO] Uglasevanje input LOW (active)"` -/
  | uglActive
  deriving Repr, DecidableEq

/-- The mutable globals of the firmware that the amplifier logic reads or
writes, plus the two output pins it drives. -/
structure AmpState where
  /-- `uint8_t band` — current band code -/
  band : Nat
  /-- `uint8_t bandOld` — previous band code -/
  bandOld : Nat
  /-- `unsigned long lastBandChangeTime` -/
  lastBandChangeTime : Nat
  /-- `unsigned long bandBlockTimeMs` -/
  bandBlockTimeMs : Nat
  /-- `int block_ptt_seconds` (already validated; appears in debug lines) -/
  blockPttSeconds : Nat
  /-- `bool pttState` — false = RX, true = TX -/
  pttState : Bool
  /-- `bool pttBlockReported` -/
  pttBlockReported : Bool
  /-- level driven on the `pttOut` pin (HIGH = true) -/
  pttOutPin : Bool
  /-- 4-bit pattern driven on the four `bandOutPins` -/
  bandOutPins : Nat
  /-- `bool debugEnabled` -/
  debugEnabled : Bool
  /-- `unsigned long debugDeadline` -/
  debugDeadline : Nat
  deriving Repr, DecidableEq

/-- What one tick of the amplifier logic produces: the updated state, the
debug events handed to `publishDebugMessage` (in call order), and the
number of status snapshots handed to `publishAmpStatus`. -/
structure TickOut where
  state : AmpState
  debug : List DebugEvent
  statusCount : Nat
  deriving Repr, DecidableEq

/-- `blockActive` as computed at the top of `handleAmplifierLogic` (and in
`publishAmpStatus` / the status web page):
`now - lastBandChangeTime <= bandBlockTimeMs` in `unsigned long`
arithmetic.  This is the Block Window's `isActive`. -/
def blockIsActive (lastBandChangeTime bandBlockTimeMs now : Nat) : Bool :=
  decide (u32sub now lastBandChangeTime ≤ bandBlockTimeMs)

/-- `bandControl()`: re-read the band code; on no change just refresh
`band`; on a change store the new code, start the PTT block timer, drive
the outputs through `applyBandOutputs` (whose pattern debug line is the
third event) and hand one status snapshot to `publishAmpStatus`. -/
def bandControl (s : AmpState) (i : TickInput) : TickOut :=
  let newBand := readBandCode i
  if newBand = s.bandOld then
    { state := { s with band := newBand }, debug := [], statusCount := 0 }
  else
    let prev := s.bandOld
    { state := { s with
        band := newBand
        bandOld := newBand
        lastBandChangeTime := i.now % U32
        bandOutPins := bandPatternOf newBand }
      debug := [DebugEvent.bandChange prev newBand,
                DebugEvent.bandBlocking s.blockPttSeconds,
                DebugEvent.bandPattern newBand (bandPatternOf newBand)]
      statusCount := 1 }

/-- `handleAmplifierLogic()`: one tick of the PTT interlock.  In the
pressed-but-blocked branch the firmware sets `pttBlockReported = true`
only inside the `if (!pttBlockReported)`; since the flag is already true
otherwise, the unconditional write below has the same effect. -/
def handleAmplifierLogic (s : AmpState) (i : TickInput) : TickOut :=
  let blockActive := blockIsActive s.lastBandChangeTime s.bandBlockTimeMs i.now
  let pttAllowed := !blockActive
  let pttPressed := i.pttLow
  let prevPtt := s.pttState
  let afterPtt : TickOut :=
    if pttPressed then
      if pttAllowed then
        { state := { s with pttOutPin := true, pttState := true,
                            pttBlockReported := false }
          debug := if !s.pttState then [DebugEvent.pttTxOn] else []
          statusCount := 0 }
      else
        { state := { s with pttBlockReported := true, pttOutPin := false,
                            pttState := false }
          debug :=
            if !s.pttBlockReported then
              [DebugEvent.pttBlocked s.blockPttSeconds]
            else []
          statusCount := 0 }
      -- No bandControl() while PTT pressed
    else
      let d := if s.pttState then [DebugEvent.pttTxOff] else []
      let s1 := { s with pttOutPin := false, pttState := false,
                         pttBlockReported := false }
      let bc := bandControl s1 i
      { state := bc.state, debug := d ++ bc.debug,
        statusCount := bc.statusCount }
  { state := afterPtt.state
    debug := afterPtt.debug ++ (if i.uglLow then [DebugEvent.uglActive] else [])
    statusCount := afterPtt.statusCount +
      (if afterPtt.state.pttState ≠ prevPtt then 1 else 0) }

/-- `publishDebugMessage`: forwards an event to the logging sink only while
`debugEnabled` holds. -/
def publishDebugMessage (debugEnabled : Bool) (e : DebugEvent) : List DebugEvent :=
  if debugEnabled then [e] else []

/-- One iteration of `loop()` restricted to the core: run the amplifier
logic, record which of its debug events pass the `debugEnabled` gate of
`publishDebugMessage`, then apply the auto-disable check
`if (debugEnabled && debugDeadline && millis() >= debugDeadline)`. -/
def loopStep (s : AmpState) (i : TickInput) : AmpState × List DebugEvent :=
  let t := handleAmplifierLogic s i
  let emitted := (t.debug).flatMap (publishDebugMessage s.debugEnabled)
  let s1 := t.state
  let s2 :=
    if s1.debugEnabled ∧ s1.debugDeadline ≠ 0 ∧ s1.debugDeadline ≤ i.now then
      { s1 with debugEnabled := false, debugDeadline := 0 }
    else s1
  (s2, emitted)

/-- The state after a sequence of `handleAmplifierLogic` ticks. -/
def runTicks (s : AmpState) : List TickInput → AmpState
  | [] => s
  | i :: is => runTicks (handleAmplifierLogic s i).state is

/-- The state after a sequence of `loop()` iterations. -/
def runLoop (s : AmpState) : List TickInput → AmpState
  | [] => s
  | i :: is => runLoop (loopStep s i).1 is

/-- All debug events that pass the `publishDebugMessage` gate over a
sequence of `loop()` iterations. -/
def runLoopEmitted (s : AmpState) : List TickInput → List DebugEvent
  | [] => []
  | i :: is => (loopStep s i).2 ++ runLoopEmitted (loopStep s i).1 is

/-- `loadConfigFromEEPROM`'s validation of `block_ptt_seconds`:
out-of-range stored values fall back to the 15 s default. -/
def loadBlockSeconds (stored : Int) : Int :=
  if stored ≤ 0 ∨ stored > 600 then 15 else stored

/-- The state right after `setup()`: globals at their initializers
(`band = bandOld = 0xFF` overwritten by the initial band read,
`lastBandChangeTime = 0`, `pttState = false`, `pttBlockReported = false`,
`debugEnabled = true`, `debugDeadline = 60000 + millis()` at setup),
`block_ptt_seconds` loaded and validated from EEPROM,
`bandBlockTimeMs = block_ptt_seconds * 1000`, the initial band read and
`applyBandOutputs(band)` applied, and the `pttOut` pin at its reset level
LOW (setup never writes it). -/
def bootState (b0 b1 b2 b3 : Bool) (storedBlockSeconds : Int)
    (setupMillis : Nat) : AmpState :=
  let secs := (loadBlockSeconds storedBlockSeconds).toNat
  let code := readBandCodeBits b0 b1 b2 b3
  { band := code
    bandOld := code
    lastBandChangeTime := 0
    bandBlockTimeMs := secs * 1000
    blockPttSeconds := secs
    pttState := false
    pttBlockReported := false
    pttOutPin := false
    bandOutPins := bandPatternOf code
    debugEnabled := true
    debugDeadline := (60000 + setupMillis) % U32 }

/-- Concrete input: PTT pressed early after boot (band pins still reading
code 7, tuning input HIGH, `millis() = 1000`). -/
def pressEarly : TickInput :=
  { pttLow := true, uglLow := false,
    bandBit0 := true, bandBit1 := true, bandBit2 := true, bandBit3 := false,
    now := 1000 }

/-- Concrete input: PTT pressed after the boot block has decayed
(`millis() = 21000`, same band pins, tuning input HIGH). -/
def pressLate : TickInput :=
  { pttLow := true, uglLow := false,
    bandBit0 := true, bandBit1 := true, bandBit2 := true, bandBit3 := false,
    now := 21000 }

/-- Concrete input: the press of `pressEarly` still held one second later. -/
def pressEarly2 : TickInput := { pressEarly with now := 2000 }

/-- Recognizer for the PTT-denial debug line. -/
def isDenialEvent : DebugEvent → Bool
  | DebugEvent.pttBlocked _ => true
  | _ => false

/-- A run of consecutive ticks on each of which the PTT input is pressed
and the block window is active: a sustained denial. -/
def denialRun : AmpState → List TickInput → Bool
  | _, [] => true
  | s, i :: is =>
      i.pttLow &&
      blockIsActive s.lastBandChangeTime s.bandBlockTimeMs i.now &&
      denialRun (handleAmplifierLogic s i).state is

/-- Whether any tick of a run hands a PTT-denial debug line to
`publishDebugMessage`. -/
def emitsDenial (s : AmpState) : List TickInput → Bool
  | [] => false
  | i :: is =>
      ((handleAmplifierLogic s i).debug).any isDenialEvent ||
      emitsDenial (handleAmplifierLogic s i).state is

/-- A concrete steady state: band 7 stored and driven, RX, no pending
denial report, block window long expired relative to `steadyInputUgl`. -/
def steadyState : AmpState :=
  { band := 7, bandOld := 7, lastBandChangeTime := 0, bandBlockTimeMs := 15000,
    blockPttSeconds := 15, pttState := false, pttBlockReported := false,
    pttOutPin := false, bandOutPins := 7, debugEnabled := true,
    debugDeadline := 60000 }

/-- Concrete input reading the same band code 7, PTT released, but with
the tuning (`uglasevanje`) input held LOW. -/
def steadyInputUgl : TickInput :=
  { pttLow := false, uglLow := true,
    bandBit0 := true, bandBit1 := true, bandBit2 := true, bandBit3 := false,
    now := 20000 }

/-- The same steady input with the tuning input HIGH. -/
def steadyInputQuiet : TickInput := { steadyInputUgl with uglLow := false }

/-- The quiet steady input at `millis() = 60000`, when the debug deadline
of `steadyState` has just been reached. -/
def deadlineTick : TickInput := { steadyInputQuiet with now := 60000 }

end R140

namespace R140

theorem bandControl_pttState (s : AmpState) (i : TickInput) :
    (bandControl s i).state.pttState = s.pttState := by
  unfold bandControl
  by_cases h : readBandCode i = s.bandOld <;> simp [h]

theorem bandControl_pttOutPin (s : AmpState) (i : TickInput) :
    (bandControl s i).state.pttOutPin = s.pttOutPin := by
  unfold bandControl
  by_cases h : readBandCode i = s.bandOld <;> simp [h]

theorem bandControl_pttBlockReported (s : AmpState) (i : TickInput) :
    (bandControl s i).state.pttBlockReported = s.pttBlockReported := by
  unfold bandControl
  by_cases h : readBandCode i = s.bandOld <;> simp [h]

/-- The final `pttState` of a tick is "pressed and not blocked". -/
theorem tick_pttState (s : AmpState) (i : TickInput) :
    (handleAmplifierLogic s i).state.pttState =
      (i.pttLow && !(blockIsActive s.lastBandChangeTime s.bandBlockTimeMs i.now)) := by
  unfold handleAmplifierLogic
  cases hp : i.pttLow <;>
    cases hb : blockIsActive s.lastBandChangeTime s.bandBlockTimeMs i.now <;>
      simp [hp, hb, bandControl_pttState]

/-- The level left on the `pttOut` pin equals the final `pttState`: every
branch of the tick writes the pin once, HIGH exactly in the
pressed-and-allowed branch. -/
theorem tick_pttOutPin (s : AmpState) (i : TickInput) :
    (handleAmplifierLogic s i).state.pttOutPin =
      (handleAmplifierLogic s i).state.pttState := by
  unfold handleAmplifierLogic
  cases hp : i.pttLow <;>
    cases hb : blockIsActive s.lastBandChangeTime s.bandBlockTimeMs i.now <;>
      simp [hp, hb, bandControl_pttState, bandControl_pttOutPin]

/-- §C1: over every input sequence, a tick whose `blockActive` is true ends
in RX with the amplifier PTT pin LOW; and a tick ends in TX exactly when
its PTT input is pressed and `blockActive` is false — the only path to TX. -/
theorem tx_only_when_pressed_and_unblocked (s0 : AmpState)
    (pre : List TickInput) (i : TickInput) :
    (blockIsActive (runTicks s0 pre).lastBandChangeTime
        (runTicks s0 pre).bandBlockTimeMs i.now = true →
      (handleAmplifierLogic (runTicks s0 pre) i).state.pttState = false ∧
      (handleAmplifierLogic (runTicks s0 pre) i).state.pttOutPin = false) ∧
    ((handleAmplifierLogic (runTicks s0 pre) i).state.pttState = true ↔
      (i.pttLow = true ∧
        blockIsActive (runTicks s0 pre).lastBandChangeTime
          (runTicks s0 pre).bandBlockTimeMs i.now = false)) := by
  set s := runTicks s0 pre with hs
  constructor
  · intro hb
    rw [tick_pttState, tick_pttOutPin, tick_pttState, hb]
    simp
  · rw [tick_pttState]
    cases hp : i.pttLow <;>
      cases hb : blockIsActive s.lastBandChangeTime s.bandBlockTimeMs i.now <;>
        simp [hp, hb]

/-- Witness for §C1: at boot (block window counting from 0) a press at
`now = 1000` is denied. -/
theorem tx_only_when_pressed_and_unblocked_witness :
    (handleAmplifierLogic (runTicks (bootState true true true false 15 0) [])
      pressEarly).state.pttState = false :=
  ((tx_only_when_pressed_and_unblocked (bootState true true true false 15 0)
      [] pressEarly).1 (by decide)).1

/-- §C2: a tick with PTT pressed leaves `band`, `bandOld`, the band output
pins and `lastBandChangeTime` unchanged, whatever the band input pins
read: `bandControl()` is not called while PTT is pressed. -/
theorem pressed_tick_freezes_band (s : AmpState) (i : TickInput)
    (h : i.pttLow = true) :
    (handleAmplifierLogic s i).state.band = s.band ∧
    (handleAmplifierLogic s i).state.bandOld = s.bandOld ∧
    (handleAmplifierLogic s i).state.bandOutPins = s.bandOutPins ∧
    (handleAmplifierLogic s i).state.lastBandChangeTime = s.lastBandChangeTime := by
  unfold handleAmplifierLogic
  cases hb : blockIsActive s.lastBandChangeTime s.bandBlockTimeMs i.now <;>
    simp [h, hb]

/-- Witness for §C2: a pressed tick at boot, with band pins reading a code
different from the stored one, changes none of the band state. -/
theorem pressed_tick_freezes_band_witness :
    (handleAmplifierLogic (bootState false false false false 15 0)
        pressEarly).state.band = (bootState false false false false 15 0).band ∧
    (handleAmplifierLogic (bootState false false false false 15 0)
        pressEarly).state.bandOld = (bootState false false false false 15 0).bandOld ∧
    (handleAmplifierLogic (bootState false false false false 15 0)
        pressEarly).state.bandOutPins = (bootState false false false false 15 0).bandOutPins ∧
    (handleAmplifierLogic (bootState false false false false 15 0)
        pressEarly).state.lastBandChangeTime = (bootState false false false false 15 0).lastBandChangeTime :=
  pressed_tick_freezes_band (bootState false false false false 15 0) pressEarly rfl

theorem u32sub_zero (a : Nat) (h : a < U32) : u32sub a 0 = a := by
  unfold u32sub
  simp [Nat.add_mod_right, Nat.mod_eq_of_lt h]

/-- Wraparound subtraction recovers the true elapsed time as long as the
elapsed time is below `2^32`. -/
theorem u32sub_elapsed (T t : Nat) (hTt : T ≤ t) (hspan : t - T < U32) :
    u32sub (t % U32) (T % U32) = t - T := by
  unfold u32sub
  rw [Nat.mod_mod_of_dvd T dvd_rfl, Nat.mod_add_mod]
  have h3 : t + (U32 - T % U32) = (t - T) + U32 * (T / U32 + 1) := by
    unfold U32
    omega
  rw [h3, Nat.add_mul_mod_self_left, Nat.mod_eq_of_lt hspan]

theorem bandControl_debugEnabled (s : AmpState) (i : TickInput) :
    (bandControl s i).state.debugEnabled = s.debugEnabled := by
  unfold bandControl
  by_cases h : readBandCode i = s.bandOld <;> simp [h]

theorem bandControl_debugDeadline (s : AmpState) (i : TickInput) :
    (bandControl s i).state.debugDeadline = s.debugDeadline := by
  unfold bandControl
  by_cases h : readBandCode i = s.bandOld <;> simp [h]

/-- The amplifier logic never touches the debug gate. -/
theorem tick_debugEnabled (s : AmpState) (i : TickInput) :
    (handleAmplifierLogic s i).state.debugEnabled = s.debugEnabled := by
  unfold handleAmplifierLogic
  cases hp : i.pttLow <;>
    cases hb : blockIsActive s.lastBandChangeTime s.bandBlockTimeMs i.now <;>
      simp [hp, hb, bandControl_debugEnabled]

theorem tick_debugDeadline (s : AmpState) (i : TickInput) :
    (handleAmplifierLogic s i).state.debugDeadline = s.debugDeadline := by
  unfold handleAmplifierLogic
  cases hp : i.pttLow <;>
    cases hb : blockIsActive s.lastBandChangeTime s.bandBlockTimeMs i.now <;>
      simp [hp, hb, bandControl_debugDeadline]

/-- `pttBlockReported` after a tick holds exactly when the tick was a
denied press. -/
theorem tick_pttBlockReported (s : AmpState) (i : TickInput) :
    (handleAmplifierLogic s i).state.pttBlockReported =
      (i.pttLow && blockIsActive s.lastBandChangeTime s.bandBlockTimeMs i.now) := by
  unfold handleAmplifierLogic
  cases hp : i.pttLow <;>
    cases hb : blockIsActive s.lastBandChangeTime s.bandBlockTimeMs i.now <;>
      simp [hp, hb, bandControl_pttBlockReported]

/-- `bandOld` after a tick: frozen while pressed, refreshed to the current
reading otherwise (`bandControl` stores the new code on a change, and on
no change the reading already equals `bandOld`). -/
theorem tick_bandOld (s : AmpState) (i : TickInput) :
    (handleAmplifierLogic s i).state.bandOld =
      (if i.pttLow then s.bandOld else readBandCode i) := by
  unfold handleAmplifierLogic bandControl
  cases hp : i.pttLow <;>
    cases hb : blockIsActive s.lastBandChangeTime s.bandBlockTimeMs i.now <;>
      by_cases hbc : readBandCode i = s.bandOld <;>
        simp [hp, hb, hbc]

/-- Closed form of the debug events one tick hands to
`publishDebugMessage`, by branch. -/
theorem tick_debug_eq (s : AmpState) (i : TickInput) :
    (handleAmplifierLogic s i).debug =
      (if i.pttLow then
        (if blockIsActive s.lastBandChangeTime s.bandBlockTimeMs i.now then
          (if s.pttBlockReported then []
           else [DebugEvent.pttBlocked s.blockPttSeconds])
         else (if s.pttState then [] else [DebugEvent.pttTxOn]))
       else
        (if s.pttState then [DebugEvent.pttTxOff] else []) ++
        (if readBandCode i = s.bandOld then []
         else [DebugEvent.bandChange s.bandOld (readBandCode i),
               DebugEvent.bandBlocking s.blockPttSeconds,
               DebugEvent.bandPattern (readBandCode i)
                 (bandPatternOf (readBandCode i))])) ++
      (if i.uglLow then [DebugEvent.uglActive] else []) := by
  unfold handleAmplifierLogic bandControl
  cases hp : i.pttLow <;>
    cases hb : blockIsActive s.lastBandChangeTime s.bandBlockTimeMs i.now <;>
      cases hr : s.pttBlockReported <;>
        cases hps : s.pttState <;>
          by_cases hbc : readBandCode i = s.bandOld <;>
            simp [hp, hb, hr, hps, hbc]

/-- §C6: a tick hands exactly one status snapshot to the telemetry sink
per detected band change and exactly one per PTTState transition
(final `pttState` differing from its value at the start of the tick),
independently, and none otherwise. -/
theorem status_snapshot_counts (s : AmpState) (i : TickInput) :
    (handleAmplifierLogic s i).statusCount =
      (if i.pttLow = false ∧ readBandCode i ≠ s.bandOld then 1 else 0) +
      (if (handleAmplifierLogic s i).state.pttState ≠ s.pttState then 1 else 0) := by
  unfold handleAmplifierLogic bandControl
  cases hp : i.pttLow <;>
    cases hb : blockIsActive s.lastBandChangeTime s.bandBlockTimeMs i.now <;>
      cases hps : s.pttState <;>
        by_cases hbc : readBandCode i = s.bandOld <;>
          simp [hp, hb, hps, hbc]

/-- Membership of the denial debug line in one tick's hand-off list. -/
theorem tick_pttBlocked_mem (s : AmpState) (i : TickInput) (sec : Nat) :
    DebugEvent.pttBlocked sec ∈ (handleAmplifierLogic s i).debug ↔
      (i.pttLow = true ∧
       blockIsActive s.lastBandChangeTime s.bandBlockTimeMs i.now = true ∧
       s.pttBlockReported = false ∧ sec = s.blockPttSeconds) := by
  rw [tick_debug_eq]
  cases hp : i.pttLow <;>
    cases hb : blockIsActive s.lastBandChangeTime s.bandBlockTimeMs i.now <;>
      cases hr : s.pttBlockReported <;>
        cases hps : s.pttState <;>
          cases hu : i.uglLow <;>
            by_cases hbc : readBandCode i = s.bandOld <;>
              simp [hp, hb, hr, hps, hu, hbc]

/-- Whether one tick hands over a denial line, as a condition on the
pre-tick state and input. -/
theorem tick_denial_any (s : AmpState) (i : TickInput) :
    ((handleAmplifierLogic s i).debug).any isDenialEvent =
      (i.pttLow &&
       blockIsActive s.lastBandChangeTime s.bandBlockTimeMs i.now &&
       !s.pttBlockReported) := by
  rw [tick_debug_eq]
  cases hp : i.pttLow <;>
    cases hb : blockIsActive s.lastBandChangeTime s.bandBlockTimeMs i.now <;>
      cases hr : s.pttBlockReported <;>
        cases hps : s.pttState <;>
          cases hu : i.uglLow <;>
            by_cases hbc : readBandCode i = s.bandOld <;>
              simp [hp, hb, hr, hps, hu, hbc, isDenialEvent]

/-- During a sustained denial entered with `pttBlockReported` already set,
no tick hands over a denial line. -/
theorem denialRun_no_reemit (is : List TickInput) : ∀ s : AmpState,
    s.pttBlockReported = true → denialRun s is = true →
    emitsDenial s is = false := by
  induction is with
  | nil => intro s _ _; rfl
  | cons i is ih =>
      intro s hr hrun
      unfold denialRun at hrun
      rw [Bool.and_eq_true, Bool.and_eq_true] at hrun
      obtain ⟨⟨hp, hb⟩, hrest⟩ := hrun
      unfold emitsDenial
      rw [tick_denial_any, hp, hb, hr]
      simp only [Bool.not_true, Bool.and_false, Bool.true_and, Bool.false_or]
      exact ih _ (by rw [tick_pttBlockReported, hp, hb]; rfl) hrest

/-- §C7: the PTT-denial debug line is edge-triggered.  On the tick a
denial begins (PTT pressed, block active, no denial yet reported) the
line is handed over; over any run of subsequent consecutive ticks that
stay pressed and blocked, it is never handed over again. -/
theorem denial_debug_edge_triggered (s : AmpState) (i : TickInput)
    (is : List TickInput) (hfresh : s.pttBlockReported = false)
    (hp : i.pttLow = true)
    (hb : blockIsActive s.lastBandChangeTime s.bandBlockTimeMs i.now = true)
    (hrun : denialRun (handleAmplifierLogic s i).state is = true) :
    DebugEvent.pttBlocked s.blockPttSeconds ∈ (handleAmplifierLogic s i).debug ∧
    emitsDenial (handleAmplifierLogic s i).state is = false := by
  refine ⟨?_, ?_⟩
  · rw [tick_pttBlocked_mem]
    exact ⟨hp, hb, hfresh, rfl⟩
  · exact denialRun_no_reemit is _ (by rw [tick_pttBlockReported, hp, hb]; rfl) hrun

/-- Witness for §C7: at boot (block active, nothing reported yet) a press
at `now = 1000` hands over the denial line once; the same press still held
at `now = 2000` hands over none. -/
theorem denial_debug_edge_triggered_witness :
    DebugEvent.pttBlocked (bootState true true true false 15 0).blockPttSeconds ∈
      (handleAmplifierLogic (bootState true true true false 15 0) pressEarly).debug ∧
    emitsDenial (handleAmplifierLogic (bootState true true true false 15 0)
      pressEarly).state [pressEarly2] = false :=
  denial_debug_edge_triggered (bootState true true true false 15 0) pressEarly
    [pressEarly2] rfl rfl (by decide) (by decide)

/-- §C3 counterexample: immediately after boot the block window is ACTIVE,
not inactive — `lastBandChangeTime` is initialized to 0, so with the
default 15 s duration a PTT press at `millis() = 1000` on the first tick
is denied (`pttState` stays RX), contradicting the claim that a first-tick
press is allowed. -/
theorem boot_block_counterexample :
    blockIsActive (bootState true true true false 15 0).lastBandChangeTime
      (bootState true true true false 15 0).bandBlockTimeMs 1000 = true ∧
    (handleAmplifierLogic (bootState true true true false 15 0)
      pressEarly).state.pttState = false := by
  decide

/-- §C3 amended: after boot `lastBandChangeTime = 0` (the boot-time band
read and output write indeed never touch it), so the block window behaves
as if a band change happened at time 0: `blockActive(now)` holds exactly
while `now ≤ bandBlockTimeMs`, a first-tick PTT press during that initial
window is denied, and a press once `now > bandBlockTimeMs` transitions
to TX. -/
theorem boot_block_active_until_duration (b0 b1 b2 b3 : Bool) (stored : Int)
    (setupMs : Nat) (i : TickInput) (hnow : i.now < U32) :
    (bootState b0 b1 b2 b3 stored setupMs).lastBandChangeTime = 0 ∧
    blockIsActive (bootState b0 b1 b2 b3 stored setupMs).lastBandChangeTime
        (bootState b0 b1 b2 b3 stored setupMs).bandBlockTimeMs i.now =
      decide (i.now ≤ (bootState b0 b1 b2 b3 stored setupMs).bandBlockTimeMs) ∧
    (i.pttLow = true →
      (bootState b0 b1 b2 b3 stored setupMs).bandBlockTimeMs < i.now →
      (handleAmplifierLogic (bootState b0 b1 b2 b3 stored setupMs)
        i).state.pttState = true) := by
  refine ⟨rfl, ?_, ?_⟩
  · show blockIsActive 0 _ i.now = _
    simp [blockIsActive, u32sub_zero i.now hnow]
  · intro hp hlt
    rw [tick_pttState]
    have hb : blockIsActive
        (bootState b0 b1 b2 b3 stored setupMs).lastBandChangeTime
        (bootState b0 b1 b2 b3 stored setupMs).bandBlockTimeMs i.now = false := by
      show blockIsActive 0 _ i.now = false
      simp only [blockIsActive, u32sub_zero i.now hnow, decide_eq_false_iff_not]
      omega
    simp [hp, hb]

/-- Witness for §C3 amended: with the default 15 s window, a press at
`millis() = 21000` on the first tick after boot is allowed and reaches TX. -/
theorem boot_block_active_until_duration_witness :
    (handleAmplifierLogic (bootState true true true false 15 0)
      pressLate).state.pttState = true :=
  (boot_block_active_until_duration true true true false 15 0 pressLate
    (by decide)).2.2 rfl (by decide)

/-- §C4 counterexample: at `t = T + D` exactly (`T = 0`, `D = 15000`,
`t = 15000`) the code's `isActive` comparison `now - changedAt <= durationMs`
is still TRUE, contradicting the claim that it is false at `t = T + D`. -/
theorem isActive_at_boundary_counterexample :
    blockIsActive 0 15000 15000 = true := by
  decide

/-- §C4 amended: after a band change at time `T` with duration `D`, and
for any later real time `t` less than one wraparound period beyond `T`
(times reduced mod `2^32` as `millis()` does), `isActive` is true exactly
when `t - T ≤ D`: true for all `T ≤ t ≤ T + D` — including `t = T + D`,
since the comparison is `<=` — and false for `t > T + D`. -/
theorem isActive_window (T D t : Nat) (hTt : T ≤ t) (hspan : t - T < U32) :
    blockIsActive (T % U32) D (t % U32) = decide (t - T ≤ D) := by
  unfold blockIsActive
  rw [u32sub_elapsed T t hTt hspan]

/-- Witness for §C4 amended: change at `T = 5000` with `D = 15000`;
at `t = 20000 = T + D` the window is still active, at `t = 20001` it is
not. -/
theorem isActive_window_witness :
    blockIsActive (5000 % U32) 15000 (20000 % U32) = decide (20000 - 5000 ≤ 15000) ∧
    blockIsActive (5000 % U32) 15000 (20001 % U32) = decide (20001 - 5000 ≤ 15000) :=
  ⟨isActive_window 5000 15000 20000 (by decide) (by decide),
   isActive_window 5000 15000 20001 (by decide) (by decide)⟩

/-- §C8 counterexample: a steady-state tick (state is a fixed point and
inputs re-read identically) with the tuning (`uglasevanje`) input held LOW
hands a debug line to the logging sink — once per tick — contradicting
the claim that steady-state ticks emit none. -/
theorem steady_tick_emits_debug_counterexample :
    (handleAmplifierLogic steadyState steadyInputUgl).state = steadyState ∧
    (handleAmplifierLogic steadyState steadyInputUgl).debug =
      [DebugEvent.uglActive] := by
  decide

/-- §C8 amended: debug lines are handed over exactly on five triggers —
the four listed (band-change detected, PTT denial onset, PTT becomes
allowed and asserts, PTT release) plus the tuning (`uglasevanje`) input
reading LOW, which repeats once per tick while that input stays LOW.
A steady-state tick (state a fixed point, inputs unchanged) hands over no
debug line only when the tuning input is HIGH. -/
theorem debug_event_triggers (s : AmpState) (i : TickInput) :
    (DebugEvent.uglActive ∈ (handleAmplifierLogic s i).debug ↔
      i.uglLow = true) ∧
    (DebugEvent.pttTxOn ∈ (handleAmplifierLogic s i).debug ↔
      (i.pttLow = true ∧
       blockIsActive s.lastBandChangeTime s.bandBlockTimeMs i.now = false ∧
       s.pttState = false)) ∧
    (∀ sec, DebugEvent.pttBlocked sec ∈ (handleAmplifierLogic s i).debug ↔
      (i.pttLow = true ∧
       blockIsActive s.lastBandChangeTime s.bandBlockTimeMs i.now = true ∧
       s.pttBlockReported = false ∧ sec = s.blockPttSeconds)) ∧
    (DebugEvent.pttTxOff ∈ (handleAmplifierLogic s i).debug ↔
      (i.pttLow = false ∧ s.pttState = true)) ∧
    (∀ p n, DebugEvent.bandChange p n ∈ (handleAmplifierLogic s i).debug ↔
      (i.pttLow = false ∧ readBandCode i ≠ s.bandOld ∧
       p = s.bandOld ∧ n = readBandCode i)) ∧
    ((handleAmplifierLogic s i).state = s → i.uglLow = false →
      (handleAmplifierLogic s i).debug = []) := by
  refine ⟨?_, ?_, tick_pttBlocked_mem s i, ?_, ?_, ?_⟩
  · rw [tick_debug_eq]
    cases hp : i.pttLow <;>
      cases hb : blockIsActive s.lastBandChangeTime s.bandBlockTimeMs i.now <;>
        cases hr : s.pttBlockReported <;>
          cases hps : s.pttState <;>
            cases hu : i.uglLow <;>
              by_cases hbc : readBandCode i = s.bandOld <;>
                simp [hp, hb, hr, hps, hu, hbc]
  · rw [tick_debug_eq]
    cases hp : i.pttLow <;>
      cases hb : blockIsActive s.lastBandChangeTime s.bandBlockTimeMs i.now <;>
        cases hr : s.pttBlockReported <;>
          cases hps : s.pttState <;>
            cases hu : i.uglLow <;>
              by_cases hbc : readBandCode i = s.bandOld <;>
                simp [hp, hb, hr, hps, hu, hbc]
  · rw [tick_debug_eq]
    cases hp : i.pttLow <;>
      cases hb : blockIsActive s.lastBandChangeTime s.bandBlockTimeMs i.now <;>
        cases hr : s.pttBlockReported <;>
          cases hps : s.pttState <;>
            cases hu : i.uglLow <;>
              by_cases hbc : readBandCode i = s.bandOld <;>
                simp [hp, hb, hr, hps, hu, hbc]
  · intro p n
    rw [tick_debug_eq]
    cases hp : i.pttLow <;>
      cases hb : blockIsActive s.lastBandChangeTime s.bandBlockTimeMs i.now <;>
        cases hr : s.pttBlockReported <;>
          cases hps : s.pttState <;>
            cases hu : i.uglLow <;>
              by_cases hbc : readBandCode i = s.bandOld <;>
                simp [hp, hb, hr, hps, hu, hbc]
  · intro hfix hugl
    rw [tick_debug_eq, hugl]
    cases hp : i.pttLow
    · have hps : s.pttState = false := by
        have hc := congrArg AmpState.pttState hfix
        rw [tick_pttState, hp] at hc
        simpa using hc.symm
      have hbc : readBandCode i = s.bandOld := by
        have hc := congrArg AmpState.bandOld hfix
        rw [tick_bandOld, hp] at hc
        simpa using hc
      simp [hps, hbc]
    · cases hb : blockIsActive s.lastBandChangeTime s.bandBlockTimeMs i.now
      · have hps : s.pttState = true := by
          have hc := congrArg AmpState.pttState hfix
          rw [tick_pttState, hp, hb] at hc
          simpa using hc.symm
        simp [hb, hps]
      · have hr : s.pttBlockReported = true := by
          have hc := congrArg AmpState.pttBlockReported hfix
          rw [tick_pttBlockReported, hp, hb] at hc
          simpa using hc.symm
        simp [hb, hr]

/-- Witness for §C8 amended: the concrete steady tick with the tuning
input HIGH hands over no debug line. -/
theorem debug_event_triggers_witness :
    (handleAmplifierLogic steadyState steadyInputQuiet).debug = [] :=
  (debug_event_triggers steadyState steadyInputQuiet).2.2.2.2.2 (by decide) rfl

theorem flatMap_gate_false : ∀ l : List DebugEvent,
    l.flatMap (publishDebugMessage false) = []
  | [] => rfl
  | e :: l => by
      rw [List.flatMap_cons, flatMap_gate_false l]
      rfl

/-- Once the debug gate is off it stays off, and nothing further passes
`publishDebugMessage`, over any continuation of the loop. -/
theorem disabled_forever (is : List TickInput) : ∀ s : AmpState,
    s.debugEnabled = false →
    (runLoop s is).debugEnabled = false ∧ runLoopEmitted s is = [] := by
  induction is with
  | nil => intro s h; exact ⟨h, rfl⟩
  | cons i is ih =>
      intro s h
      have h1 : (handleAmplifierLogic s i).state.debugEnabled = false := by
        rw [tick_debugEnabled]; exact h
      have hstep : (loopStep s i).1.debugEnabled = false := by
        simp only [loopStep]
        split
        · rfl
        · exact h1
      have hemit : (loopStep s i).2 = [] := by
        simp only [loopStep]
        rw [h]
        exact flatMap_gate_false _
      unfold runLoop runLoopEmitted
      refine ⟨(ih _ hstep).1, ?_⟩
      rw [hemit, (ih _ hstep).2]
      rfl

/-- §C10: all debug emission is globally time-limited.  On the first loop
iteration whose `millis()` has reached `debugDeadline` (60 s after boot,
and still nonzero), the gate is cleared; from then on `debugEnabled` stays
false and no debug event of any kind passes `publishDebugMessage`, for
every continuation of inputs, even ones on which the trigger conditions
occur. -/
theorem debug_permanently_disabled_after_deadline (s : AmpState)
    (i : TickInput) (is : List TickInput) (hdl : s.debugDeadline ≠ 0)
    (hnow : s.debugDeadline ≤ i.now) :
    (loopStep s i).1.debugEnabled = false ∧
    (runLoop (loopStep s i).1 is).debugEnabled = false ∧
    runLoopEmitted (loopStep s i).1 is = [] := by
  have hstep : (loopStep s i).1.debugEnabled = false := by
    simp only [loopStep]
    cases hsd : s.debugEnabled
    · split
      · rfl
      · rw [tick_debugEnabled]; exact hsd
    · have hcond : (handleAmplifierLogic s i).state.debugEnabled = true ∧
          (handleAmplifierLogic s i).state.debugDeadline ≠ 0 ∧
          (handleAmplifierLogic s i).state.debugDeadline ≤ i.now := by
        rw [tick_debugEnabled, tick_debugDeadline]
        exact ⟨hsd, hdl, hnow⟩
      rw [if_pos hcond]
  exact ⟨hstep, (disabled_forever is _ hstep).1, (disabled_forever is _ hstep).2⟩

/-- Witness for §C10: the deadline tick at `now = 60000` clears the gate,
and a follow-up tick that would hand over the tuning-input debug line
emits nothing. -/
theorem debug_permanently_disabled_after_deadline_witness :
    (loopStep steadyState deadlineTick).1.debugEnabled = false ∧
    (runLoop (loopStep steadyState deadlineTick).1
      [steadyInputUgl]).debugEnabled = false ∧
    runLoopEmitted (loopStep steadyState deadlineTick).1 [steadyInputUgl] = [] :=
  debug_permanently_disabled_after_deadline steadyState deadlineTick
    [steadyInputUgl] (by decide) (by decide)

/-- §C5: for every 4-bit band code, the firmware's output-pattern table
(`applyBandOutputs`'s `switch`) is exactly the §4.2 table, and codes 0–4
produce the same all-on pattern as code 15. -/
theorem bandPatternOf_matches_spec_table :
    (∀ b : Fin 16, bandPatternOf b.val = specOutputTable b.val) ∧
    (∀ b : Fin 5, bandPatternOf b.val = bandPatternOf 15) := by
  decide

set_option maxRecDepth 40000 in
/-- §C9: the two historical variants implement the same band mapping: for
every band code and every prior PORTD contents, the bits the earlier
sketch leaves on PORTD 2–5 after a band change equal the pattern the
current firmware's `applyBandOutputs` drives onto output pins 0–3. -/
theorem basic_sketch_matches_applyBandOutputs :
    ∀ b : Fin 16, ∀ p : Fin 256,
      portdOutputBits (basicBandPORTD b.val p.val) = bandPatternOf b.val := by
  decide

end R140
